import Mathlib

/-!
Verification of the feedback-authorization subsystem of the erc8004-sdk-py
repository. Python strings are modelled as lists of Unicode code points
(`List Nat`), byte strings as lists of byte values (`List Nat`, each < 256),
and raised exceptions as `Except SdkError`. The third-party primitives the
source calls (`eth_utils.keccak`, `Web3.to_checksum_address`,
`Web3.to_bytes`, `bytes.fromhex`, `eth_abi.encode`) are embedded faithfully
from their reference behaviour, since the SDK's observable results depend on
them byte for byte.
-/

/-- Exception kinds observable from the embedded code paths.
`contractInteractionError` and `signatureError` are the SDK's own exception
classes (src/erc8004_sdk/exceptions.py); `valueError` is Python's
`ValueError` as raised by `eth_utils` address validation; `encodingError`
is the `eth_abi` `EncodingError` family (including `ValueOutOfBounds`);
`attributeError` is Python's `AttributeError` from a failed attribute
lookup. -/
inductive SdkError where
  | contractInteractionError
  | signatureError
  | valueError
  | encodingError
  | attributeError
deriving DecidableEq, Repr

/-- Code points of a string literal, used to write concrete inputs. -/
def strBytes (s : String) : List Nat := s.toList.map Char.toNat

/-- ASCII lowercase conversion on a single code point (Python `str.lower`
restricted to ASCII, which is all the address logic ever sees). -/
def asciiLower (c : Nat) : Nat := if 65 ≤ c ∧ c ≤ 90 then c + 32 else c

/-- ASCII uppercase conversion on a single code point (Python `str.upper`
restricted to ASCII). -/
def asciiUpper (c : Nat) : Nat := if 97 ≤ c ∧ c ≤ 122 then c - 32 else c

/-- Hexadecimal digit test for a code point, matching `[0-9a-fA-F]`. -/
def isHexDigitB (c : Nat) : Bool :=
  (48 ≤ c && c ≤ 57) || (97 ≤ c && c ≤ 102) || (65 ≤ c && c ≤ 70)

/-- Lowercase-or-digit hexadecimal digit test, matching `[0-9a-f]`. -/
def isLowerHexB (c : Nat) : Bool :=
  (48 ≤ c && c ≤ 57) || (97 ≤ c && c ≤ 102)

/-- Numeric value of a hexadecimal digit code point (`int(c, 16)`). -/
def hexVal (c : Nat) : Nat :=
  if 48 ≤ c ∧ c ≤ 57 then c - 48
  else if 65 ≤ c ∧ c ≤ 70 then c - 55
  else if 97 ≤ c ∧ c ≤ 102 then c - 87
  else 0

/-- Lowercase hex digit for a value below 16 (as used by `encode_hex`). -/
def hexDigitChar (n : Nat) : Nat := if n < 10 then 48 + n else 87 + n

/-- Lowercase hex rendering of a byte string, two digits per byte. -/
def hexCharsOfBytes (bs : List Nat) : List Nat :=
  (bs.map fun b => [hexDigitChar (b / 16), hexDigitChar (b % 16)]).flatten

/-- ASCII whitespace test used to model Python `str.strip`. -/
def isSpaceB (c : Nat) : Bool := c == 32 || (9 ≤ c && c ≤ 13)

/-- Python `str.strip()`: remove leading and trailing whitespace. -/
def pyStrip (s : List Nat) : List Nat :=
  ((s.dropWhile isSpaceB).reverse.dropWhile isSpaceB).reverse

/-- UTF-8 encoding of one code point (Python `str.encode`). -/
def utf8Char (c : Nat) : List Nat :=
  if c < 128 then [c]
  else if c < 2048 then [192 + c / 64, 128 + c % 64]
  else if c < 65536 then [224 + c / 4096, 128 + (c / 64) % 64, 128 + c % 64]
  else [240 + c / 262144, 128 + (c / 4096) % 64, 128 + (c / 64) % 64, 128 + c % 64]

/-- UTF-8 encoding of a string (Python `str.encode` with encoding utf-8). -/
def utf8Encode (s : List Nat) : List Nat := (s.map utf8Char).flatten

/- ### Keccak-256 (eth_utils.keccak, the hash behind EIP-55 checksums and
the feedback-auth message digest). 64-bit lanes are Nats kept below 2^64. -/

/-- All-ones 64-bit mask. -/
def MASK64 : Nat := 18446744073709551615

/-- Left rotation of a 64-bit lane. -/
def rotl64 (x n : Nat) : Nat := ((x <<< n) ||| (x >>> (64 - n))) &&& MASK64

/-- Bitwise complement of a 64-bit lane. -/
def not64 (x : Nat) : Nat := x ^^^ MASK64

/-- Lane (x, y) of a 25-lane sponge state (stored at index x + 5y). -/
def lane (s : List Nat) (x y : Nat) : Nat := s.getD (x + 5 * y) 0

/-- Theta step of Keccak-f[1600]. -/
def keccakTheta (s : List Nat) : List Nat :=
  let C : Nat → Nat := fun x =>
    lane s x 0 ^^^ lane s x 1 ^^^ lane s x 2 ^^^ lane s x 3 ^^^ lane s x 4
  let D : Nat → Nat := fun x => C ((x + 4) % 5) ^^^ rotl64 (C ((x + 1) % 5)) 1
  (List.range 25).map fun i => s.getD i 0 ^^^ D (i % 5)

/-- Rotation offsets of the rho step, as rows indexed by y; the offset of
lane (x, y) sits at row y, column x. -/
def keccakRotOffsets : List (List Nat) :=
  [[0, 1, 62, 28, 27],
   [36, 44, 6, 55, 20],
   [3, 10, 43, 25, 39],
   [41, 45, 15, 21, 8],
   [18, 2, 61, 56, 14]]

/-- Combined rho and pi steps of Keccak-f[1600]. -/
def keccakRhoPi (s : List Nat) : List Nat :=
  (List.range 25).map fun j =>
    let X := j % 5
    let Y := j / 5
    let sx := (X + 3 * Y) % 5
    let sy := X
    rotl64 (lane s sx sy) ((keccakRotOffsets.getD sy []).getD sx 0)

/-- Chi step of Keccak-f[1600]. -/
def keccakChi (s : List Nat) : List Nat :=
  (List.range 25).map fun j =>
    let X := j % 5
    let Y := j / 5
    lane s X Y ^^^ (not64 (lane s ((X + 1) % 5) Y) &&& lane s ((X + 2) % 5) Y)

/-- Round constants of Keccak-f[1600], in round order, six per row. -/
def keccakRC : List (List Nat) :=
  [[0x1, 0x8082, 0x800000000000808a,
    0x8000000080008000, 0x808b, 0x80000001],
   [0x8000000080008081, 0x8000000000008009, 0x8a,
    0x88, 0x80008009, 0x8000000a],
   [0x8000808b, 0x800000000000008b, 0x8000000000008089,
    0x8000000000008003, 0x8000000000008002, 0x8000000000000080],
   [0x800a, 0x800000008000000a, 0x8000000080008081,
    0x8000000000008080, 0x80000001, 0x8000000080008008]]

/-- Iota step: xor the round constant into lane (0, 0). -/
def keccakIota (rc : Nat) (s : List Nat) : List Nat :=
  match s with
  | [] => []
  | a :: rest => (a ^^^ rc) :: rest

/-- The full Keccak-f[1600] permutation (24 rounds). -/
def keccakF (s : List Nat) : List Nat :=
  keccakRC.flatten.foldl
    (fun st rc => keccakIota rc (keccakChi (keccakRhoPi (keccakTheta st)))) s

/-- Little-endian interpretation of up to eight bytes as one lane. -/
def bytesToLane (bs : List Nat) : Nat :=
  bs.foldr (fun b acc => acc * 256 + b) 0

/-- Little-endian rendering of one lane as eight bytes. -/
def laneToBytes (x : Nat) : List Nat :=
  (List.range 8).map fun i => (x >>> (8 * i)) % 256

/-- Multi-rate padding of the original Keccak (domain byte 0x01), rate 136. -/
def keccakPad (msg : List Nat) : List Nat :=
  let p := 136 - msg.length % 136
  if p = 1 then msg ++ [0x81]
  else msg ++ [0x01] ++ List.replicate (p - 2) 0 ++ [0x80]

/-- Absorb one 136-byte block into the sponge state and permute. -/
def keccakAbsorbBlock (s block : List Nat) : List Nat :=
  keccakF ((List.range 25).map fun i =>
    s.getD i 0 ^^^ (if i < 17 then bytesToLane ((block.drop (8 * i)).take 8) else 0))

/-- Absorb the given number of 136-byte blocks of a padded message. -/
def keccakAbsorbChunks : Nat → List Nat → List Nat → List Nat
  | 0, s, _ => s
  | n + 1, s, msg =>
    keccakAbsorbChunks n (keccakAbsorbBlock s (msg.take 136)) (msg.drop 136)

/-- Keccak-256 digest of a byte string (32 bytes), as computed by
`eth_utils.keccak`: pad, absorb every 136-byte block (the padded length is
an exact multiple of 136), and squeeze the first four lanes. Validated
against the reference digests of the empty string and of "abc". -/
def keccak256 (msg : List Nat) : List Nat :=
  let padded := keccakPad msg
  let final := keccakAbsorbChunks (padded.length / 136) (List.replicate 25 0) padded
  laneToBytes (final.getD 0 0) ++ laneToBytes (final.getD 1 0) ++
    laneToBytes (final.getD 2 0) ++ laneToBytes (final.getD 3 0)

/- ### eth_utils address handling (`Web3.to_checksum_address`). -/

/-- Code points of the literal "0x". -/
def hexPrefix : List Nat := [48, 120]

/-- Models `eth_utils.is_0x_prefixed`: the string starts with "0x" or "0X". -/
def is0xPrefixedB (s : List Nat) : Bool :=
  match s with
  | a :: b :: _ => a == 48 && (b == 120 || b == 88)
  | _ => false

/-- Models `eth_utils.remove_0x_prefix`. -/
def remove0x (s : List Nat) : List Nat :=
  if is0xPrefixedB s then s.drop 2 else s

/-- Models `eth_utils.is_hex`: full match of `(0[xX])?[0-9a-fA-F]*`. -/
def isHexStrB (s : List Nat) : Bool := (remove0x s).all isHexDigitB

/-- Syntactic address validity as enforced by `to_normalized_address`
(`is_hex_address`): hex string whose unprefixed part has 40 digits. -/
def validAddrB (s : List Nat) : Bool :=
  isHexStrB s && (remove0x s).length == 40

/-- EIP-55 checksum transformation of a lowercase 40-digit hex body: a
letter is uppercased exactly when the corresponding hex digit of the
keccak-256 digest of the body's ASCII bytes exceeds 7. -/
def eip55Body (body : List Nat) : List Nat :=
  List.zipWith (fun c h => if 7 < hexVal h then asciiUpper c else c)
    body (hexCharsOfBytes (keccak256 body))

/-- Checksummed rendering of a syntactically valid address string. -/
def checksumOf (s : List Nat) : List Nat :=
  hexPrefix ++ eip55Body ((remove0x s).map asciiLower)

/-- Models `Web3.to_checksum_address` (eth_utils): normalize to lowercase
hex, validate as a 20-byte address (raising `ValueError` otherwise), then
apply the EIP-55 checksum. -/
def to_checksum_address (s : List Nat) : Except SdkError (List Nat) :=
  if validAddrB s then .ok (checksumOf s) else .error .valueError

/-- Models `eth_utils.is_checksum_formatted_address`: a valid hex address
whose body is neither all lowercase nor all uppercase. -/
def isChecksumFormattedB (s : List Nat) : Bool :=
  validAddrB s &&
    !((remove0x s) == (remove0x s).map asciiLower) &&
    !((remove0x s) == (remove0x s).map asciiUpper)

/-- Models `eth_utils.is_checksum_address`: the string equals its own
checksummed rendering. -/
def isChecksumAddressB (s : List Nat) : Bool :=
  validAddrB s && s == checksumOf s

/-- Models `eth_utils.is_address`: syntactically valid, and when the body
is checksum formatted (mixed case) the checksum must be correct. -/
def isAddressB (s : List Nat) : Bool :=
  validAddrB s && (!isChecksumFormattedB s || isChecksumAddressB s)

/- ### eth_abi encoding for the static schema of signer.py
(`ABI_TYPES = (uint256, address, uint64, uint256, uint256, address, address)`). -/

/-- Big-endian 32-byte rendering of a Nat (one ABI head slot; the value is
right-aligned, i.e. zero-left-padded). -/
def be32 (n : Nat) : List Nat :=
  (List.range 32).map fun i => (n >>> (8 * (31 - i))) % 256

/-- Models the `eth_abi` unsigned-integer encoder of the given bit width:
values outside [0, 2^bits) raise the `EncodingError` family
(`ValueOutOfBounds`). -/
def uintSlot (bits : Nat) (v : Int) : Except SdkError (List Nat) :=
  if 0 ≤ v ∧ v < (2 : Int) ^ bits then .ok (be32 v.toNat) else .error .encodingError

/-- Byte decoding of an even-length hex body, two digits per byte (the
`to_canonical_address` step of the `eth_abi` address encoder). -/
def hexBodyBytes : List Nat → List Nat
  | [] => []
  | [_] => []
  | a :: b :: rest => (hexVal a * 16 + hexVal b) :: hexBodyBytes rest

/-- Models the `eth_abi` address encoder: the value must satisfy
`is_address` (which rejects mixed-case strings with a wrong EIP-55
checksum), and encodes as 12 zero bytes followed by the 20 address bytes. -/
def addressSlot (s : List Nat) : Except SdkError (List Nat) :=
  if isAddressB s then
    .ok (List.replicate 12 0 ++ hexBodyBytes ((remove0x s).map asciiLower))
  else .error .encodingError

/-- Models `eth_abi.encode(ABI_TYPES, (agent_id, client, index_limit,
expiry, chain_id, registry, signer))`: the seven head slots in declared
order, 32 bytes each. -/
def encodeFeedbackAuthStruct (agentId : Int) (client : List Nat)
    (indexLimit expiry chainId : Int) (registry signer : List Nat) :
    Except SdkError (List Nat) := do
  let s1 ← uintSlot 256 agentId
  let s2 ← addressSlot client
  let s3 ← uintSlot 64 indexLimit
  let s4 ← uintSlot 256 expiry
  let s5 ← uintSlot 256 chainId
  let s6 ← addressSlot registry
  let s7 ← addressSlot signer
  return s1 ++ s2 ++ s3 ++ s4 ++ s5 ++ s6 ++ s7

/-- Range constraint enforced by the `eth_abi` unsigned-integer encoders. -/
def uintOk (bits : Nat) (v : Int) : Prop := 0 ≤ v ∧ v < 2 ^ bits

/-- The 32-byte address head slot contents: 12 zero bytes then the 20
address bytes of the lowercased body. -/
def addrSlotBytes (s : List Nat) : List Nat :=
  List.replicate 12 0 ++ hexBodyBytes ((remove0x s).map asciiLower)

/-- The 224 struct bytes produced for the seven fields in declared order. -/
def structSlots (agentId : Int) (client : List Nat)
    (indexLimit expiry chainId : Int) (registry signer : List Nat) : List Nat :=
  be32 agentId.toNat ++ addrSlotBytes client ++ be32 indexLimit.toNat ++
    be32 expiry.toNat ++ be32 chainId.toNat ++ addrSlotBytes registry ++
    addrSlotBytes signer

/- ### src/erc8004_sdk/signer.py -/

/-- Feedback authorization payload returned by AuthFeedback
(src/erc8004_sdk/signer.py, dataclass `FeedbackAuthPayload`). -/
structure FeedbackAuthPayload where
  agent_id : Int
  client_address : List Nat
  index_limit : Int
  expiry : Int
  chain_id : Int
  identity_registry : List Nat
  signer_address : List Nat
  signature : List Nat
deriving DecidableEq, Repr

/-- Models the `encoded` property: re-checksum the three address fields
(`Web3.to_checksum_address` raising `ValueError` on a malformed one),
ABI-encode the seven fields, and append the signature bytes. -/
def FeedbackAuthPayload.encoded (p : FeedbackAuthPayload) :
    Except SdkError (List Nat) := do
  let client ← to_checksum_address p.client_address
  let registry ← to_checksum_address p.identity_registry
  let signer ← to_checksum_address p.signer_address
  let structBytes ← encodeFeedbackAuthStruct p.agent_id client p.index_limit
    p.expiry p.chain_id registry signer
  return structBytes ++ p.signature

/-- Signing backend state derived from a private key by
`eth_account.Account.from_key` (external library): a derived address and a
signature function. `sign` maps the keccak digest of the encoded struct to
the signature bytes produced by `encode_defunct` wrapping plus ECDSA
signing, which are opaque external computations. -/
structure EthAccount where
  address : List Nat
  sign : List Nat → List Nat

/-- Holder of the signing account (class `AuthFeedback`). -/
structure AuthFeedback where
  account : EthAccount

/-- Models `AuthFeedback.__init__`: an empty key raises `SignatureError`;
a key rejected by `Account.from_key` (modelled by the `fromKey` backend
returning an error) is wrapped into `SignatureError`. -/
def AuthFeedback.fromPrivateKey
    (fromKey : List Nat → Except (List Nat) EthAccount)
    (privateKey : List Nat) : Except SdkError AuthFeedback :=
  if privateKey = [] then .error .signatureError
  else
    match fromKey privateKey with
    | .error _ => .error .signatureError
    | .ok acct => .ok ⟨acct⟩

/-- The `signer_address or self.signer_address` expression of `build`:
Python `or` falls back on an empty (falsy) string as well as on `None`. -/
def effectiveSigner (af : AuthFeedback) (signerAddress : Option (List Nat)) :
    List Nat :=
  match signerAddress with
  | some s => if s = [] then af.account.address else s
  | none => af.account.address

/-- Models `AuthFeedback.build`: checksum the signer, client and registry
addresses (in source evaluation order), ABI-encode the struct, hash it,
sign the digest, enforce the 65-byte signature length (raising
`SignatureError` otherwise), and assemble the payload from the normalized
field values. -/
def AuthFeedback.build (af : AuthFeedback) (agentId : Int)
    (clientAddress : List Nat) (indexLimit expiry chainId : Int)
    (identityRegistry : List Nat) (signerAddress : Option (List Nat)) :
    Except SdkError FeedbackAuthPayload := do
  let signer ← to_checksum_address (effectiveSigner af signerAddress)
  let client ← to_checksum_address clientAddress
  let registry ← to_checksum_address identityRegistry
  let structBytes ← encodeFeedbackAuthStruct agentId client indexLimit
    expiry chainId registry signer
  let messageHash := keccak256 structBytes
  let signature := af.account.sign messageHash
  if signature.length ≠ 65 then .error .signatureError
  else .ok ⟨agentId, client, indexLimit, expiry, chainId, registry, signer, signature⟩

/- ### src/erc8004_sdk/contract.py: byte coercion and metadata handling -/

/-- Python values that reach `_to_bytes_general`: byte strings, bytearrays,
text, or anything else (represented by an integer, the documented example
of a non-bytes non-text input; every such value takes the same final
`raise` branch). -/
inductive PyVal where
  | pyBytes (b : List Nat)
  | pyBytearray (b : List Nat)
  | pyStr (s : List Nat)
  | pyInt (n : Int)
deriving DecidableEq, Repr

/-- Models CPython `bytes.fromhex` on Python 3.7 and later (web3 requires
at least 3.7): ASCII whitespace may separate two-digit groups; each group
is two hex digits; anything else raises `ValueError` (returned as
`none`). -/
def fromhexCP : List Nat → Option (List Nat)
  | [] => some []
  | a :: rest =>
    if isSpaceB a then fromhexCP rest
    else
      match rest with
      | [] => none
      | b :: t =>
        if isHexDigitB a && isHexDigitB b then
          (fromhexCP t).map fun bs => (hexVal a * 16 + hexVal b) :: bs
        else none

/-- Models `eth_utils.to_bytes(hexstr=s)` as called by `Web3.to_bytes`: a
string of odd length is left-padded with one zero digit after the prefix,
then the unprefixed part is decoded by `bytes.fromhex`. -/
def web3ToBytesHexstr (s : List Nat) : Option (List Nat) :=
  fromhexCP ((if s.length % 2 = 1 then [48] else []) ++ remove0x s)

/-- Models `_to_bytes_general` (src/erc8004_sdk/contract.py): bytes and
bytearrays pass through, text is stripped and either hex-decoded (when it
starts with "0x") or UTF-8 encoded, and any other value raises
`ContractInteractionError`; a hex decoding failure (a `ValueError`) is
wrapped into `ContractInteractionError`. -/
def to_bytes_general (v : PyVal) : Except SdkError (List Nat) :=
  match v with
  | .pyBytes b => .ok b
  | .pyBytearray b => .ok b
  | .pyStr s =>
    let s' := pyStrip s
    if s'.take 2 = hexPrefix then
      match web3ToBytesHexstr s' with
      | some b => .ok b
      | none => .error .contractInteractionError
    else .ok (utf8Encode s')
  | .pyInt _ => .error .contractInteractionError

/-- Metadata item supplied during registration (dataclass `MetadataEntry`,
src/erc8004_sdk/types.py; field types are not enforced by the dataclass,
so both fields carry arbitrary Python values). -/
structure MetadataEntry where
  key : PyVal
  value : PyVal
deriving DecidableEq

/-- One element of the `metadata` argument: either a structured
`MetadataEntry` or a mapping which may lack the "key" or "value" field. -/
inductive MetadataInput where
  | entry (e : MetadataEntry)
  | mapping (key? : Option PyVal) (value? : Option PyVal)
deriving DecidableEq

/-- Models the `_to_bytes` helper: `_to_bytes_general` with its failure
re-raised as `ContractInteractionError` about `metadata.value`. -/
def to_bytes_meta (v : PyVal) : Except SdkError (List Nat) :=
  match to_bytes_general v with
  | .ok b => .ok b
  | .error _ => .error .contractInteractionError

/-- Models `normalize_metadata_entries` (src/erc8004_sdk/contract.py): a
mapping entry missing "key" or "value" raises `ContractInteractionError`,
a non-string key raises `ContractInteractionError`, values are coerced to
bytes, and the normalized key/value records keep the input order. -/
def normalize_metadata_entries :
    List MetadataInput → Except SdkError (List (List Nat × List Nat))
  | [] => .ok []
  | e :: rest => do
    let kv ← (match e with
      | .entry en => .ok (en.key, en.value)
      | .mapping key? value? =>
        match key?, value? with
        | some k, some v => .ok (k, v)
        | _, _ => .error SdkError.contractInteractionError)
    match kv.1 with
    | .pyStr ks => do
      let vb ← to_bytes_meta kv.2
      let rest' ← normalize_metadata_entries rest
      return (ks, vb) :: rest'
    | _ => .error .contractInteractionError

/- ### src/erc8004_sdk/client.py and types.py: revoke args and the
last-index query -/

/-- Arguments for revoking feedback (dataclass
`ReputationRevokeFeedbackArgs`, src/erc8004_sdk/types.py; `gas_limit` and
`value` both default to 0). -/
structure ReputationRevokeFeedbackArgs where
  agent_id : Int
  feedback_index : Int
  gas_limit : Int
  value : Int
deriving DecidableEq, Repr

/-- Models `ERC8004Client.revoke_feedback`'s argument construction: the
dataclass is built from `agent_id`, `feedback_index` and `gas_limit` only;
the client's own `value` parameter is not forwarded, so the dataclass
field keeps its default 0. -/
def client_revoke_feedback_args (agentId feedbackIndex gasLimit value : Int) :
    ReputationRevokeFeedbackArgs :=
  ⟨agentId, feedbackIndex, gasLimit, 0⟩

/-- The `value` the revoke transaction is built with:
`ReputationRegistryService.revoke_feedback` passes `args.value` into
`_send_transaction`, which places it into the transaction parameters. -/
def revoke_feedback_tx_value (args : ReputationRevokeFeedbackArgs) : Int :=
  args.value

/-- Attribute names defined on `BaseContractService`
(src/erc8004_sdk/contract.py lines 27-154). -/
def baseContractServiceAttrs : List String :=
  ["__init__", "web3", "contract", "as_dict", "_build_tx_params",
   "_send_transaction"]

/-- Attribute names defined on `ReputationRegistryService`
(src/erc8004_sdk/contract.py lines 336-396) together with the inherited
ones: the class body defines only `__init__`, `give_feedback`,
`append_response`, `revoke_feedback` and `_coerce_bytes32`. -/
def reputationRegistryServiceAttrs : List String :=
  ["__init__", "give_feedback", "append_response", "revoke_feedback",
   "_coerce_bytes32"] ++ baseContractServiceAttrs

/-- Python attribute lookup on an object of the given class: a name not
among the class attributes raises `AttributeError`. -/
def pyGetattrCall (attrs : List String) (name : String) :
    Except SdkError Unit :=
  if name ∈ attrs then .ok () else .error .attributeError

/-- Models the delegation inside `ERC8004Client.get_last_index`
(src/erc8004_sdk/client.py lines 411-416): the attribute access
`self._reputation_registry_service.get_last_index`. -/
def client_get_last_index_call : Except SdkError Unit :=
  pyGetattrCall reputationRegistryServiceAttrs "get_last_index"

deriving instance DecidableEq for Except

set_option maxRecDepth 1000000

/- ### Concrete inputs used to exercise the definitions -/

/-- A syntactically valid all-digit client address. -/
def wClientAddr : List Nat := strBytes "0x1111111111111111111111111111111111111111"

/-- A syntactically valid all-digit registry address. -/
def wRegistryAddr : List Nat := strBytes "0x2222222222222222222222222222222222222222"

/-- A syntactically valid all-digit signer address (an all-digit address is
its own checksummed form). -/
def wSignerAddr : List Nat := strBytes "0x3333333333333333333333333333333333333333"

/-- A signing backend whose signatures are 65 bytes long. -/
def wAccount : EthAccount := ⟨wSignerAddr, fun _ => List.replicate 65 7⟩

/-- An auth builder over the well-behaved backend. -/
def wAuth : AuthFeedback := ⟨wAccount⟩

/-- A misbehaving signing backend producing 3-byte signatures. -/
def wBadAccount : EthAccount := ⟨wSignerAddr, fun _ => [1, 2, 3]⟩

/-- An auth builder over the misbehaving backend. -/
def wBadAuth : AuthFeedback := ⟨wBadAccount⟩

/-- Fallback payload used only to keep concrete projections total. -/
def defaultPayload : FeedbackAuthPayload := ⟨0, [], 0, 0, 0, [], [], []⟩

/-- The payload a successful `build 123 wClientAddr 5 1700000000 1
wRegistryAddr none` call on `wAuth` produces: the all-digit addresses are
their own checksummed forms and the backend signature is 65 repeated
bytes. -/
def wPayload : FeedbackAuthPayload :=
  ⟨123, wClientAddr, 5, 1700000000, 1, wRegistryAddr, wSignerAddr,
    List.replicate 65 7⟩

/-- A case variant of `wClientAddr` with an uppercase prefix. -/
def wClientUpper : List Nat := strBytes "0X1111111111111111111111111111111111111111"

/-- A case variant of `wRegistryAddr` with an uppercase prefix. -/
def wRegistryUpper : List Nat := strBytes "0X2222222222222222222222222222222222222222"

/-- A case variant of `wSignerAddr` with an uppercase prefix. -/
def wSignerUpper : List Nat := strBytes "0X3333333333333333333333333333333333333333"

/-- Concrete `Account.from_key` backend: accepts the key "00". -/
def wFromKey : List Nat → Except (List Nat) EthAccount :=
  fun k => if k = strBytes "00" then .ok wAccount else .error (strBytes "bad key")

/-- Bytes carried by an `Except` result, for naming concrete outputs. -/
def exceptBytesOr (e : Except SdkError (List Nat)) : List Nat :=
  match e with
  | .ok b => b
  | .error _ => []

/-- Re-encoding of the fields of `wPayload` with the three address inputs
replaced by uppercase-prefixed case variants. -/
def wStruct2 : List Nat :=
  exceptBytesOr (encodeFeedbackAuthStruct 123 wClientUpper 5 1700000000 1
    wRegistryUpper wSignerUpper)

/-- Validity of the fields a payload carries: syntactically valid
addresses and integers within the ABI ranges, i.e. exactly the conditions
under which the `encoded` property completes without raising. -/
def payloadFieldsOk (p : FeedbackAuthPayload) : Prop :=
  validAddrB p.client_address = true ∧
  validAddrB p.identity_registry = true ∧
  validAddrB p.signer_address = true ∧
  uintOk 256 p.agent_id ∧ uintOk 64 p.index_limit ∧
  uintOk 256 p.expiry ∧ uintOk 256 p.chain_id

/-- A case variant of `wPayload`: the same fields with uppercase-prefixed
address strings. -/
def wPayloadUpper : FeedbackAuthPayload :=
  ⟨123, wClientUpper, 5, 1700000000, 1, wRegistryUpper, wSignerUpper,
    List.replicate 65 7⟩

/-- A mixed-case address from the EIP-55 reference vectors. -/
def wEip55Addr : List Nat := strBytes "0xfb6916095ca1df60bb79ce92ce3ea74c37c5d359"

/-- A payload with a malformed client address and an empty signature. -/
def c9Payload : FeedbackAuthPayload :=
  ⟨1, strBytes "zz", 2, 3, 4, wRegistryAddr, wSignerAddr, []⟩

/- ### Character-level facts about case conversion and hex digits -/

theorem asciiLower_asciiUpper (c : Nat) : asciiLower (asciiUpper c) = asciiLower c := by
  unfold asciiLower asciiUpper
  split_ifs <;> omega

theorem isLowerHexB_fixed (c : Nat) (h : isLowerHexB c = true) : asciiLower c = c := by
  simp only [isLowerHexB, Bool.or_eq_true, Bool.and_eq_true, decide_eq_true_eq] at h
  unfold asciiLower
  split_ifs <;> omega

theorem isLowerHexB_asciiLower (c : Nat) (h : isHexDigitB c = true) :
    isLowerHexB (asciiLower c) = true := by
  simp only [isHexDigitB, Bool.or_eq_true, Bool.and_eq_true, decide_eq_true_eq] at h
  simp only [isLowerHexB, Bool.or_eq_true, Bool.and_eq_true, decide_eq_true_eq]
  unfold asciiLower
  split_ifs <;> omega

theorem isHexDigitB_asciiUpper (c : Nat) (h : isHexDigitB c = true) :
    isHexDigitB (asciiUpper c) = true := by
  simp only [isHexDigitB, Bool.or_eq_true, Bool.and_eq_true, decide_eq_true_eq] at h ⊢
  unfold asciiUpper
  split_ifs <;> omega

theorem isHexDigitB_asciiLower (c : Nat) :
    isHexDigitB (asciiLower c) = isHexDigitB c := by
  apply Bool.eq_iff_iff.mpr
  simp only [isHexDigitB, Bool.or_eq_true, Bool.and_eq_true, decide_eq_true_eq]
  unfold asciiLower
  split_ifs <;> omega

theorem asciiLower_eq_48_iff (c : Nat) : asciiLower c = 48 ↔ c = 48 := by
  unfold asciiLower
  split_ifs <;> omega

theorem asciiLower_eq_120_iff (c : Nat) : asciiLower c = 120 ↔ c = 120 ∨ c = 88 := by
  unfold asciiLower
  split_ifs <;> omega

/- ### List-level facts about case conversion -/

theorem map_asciiLower_asciiUpper (l : List Nat) :
    (l.map asciiUpper).map asciiLower = l.map asciiLower := by
  induction l with
  | nil => rfl
  | cons c t ih => simp [asciiLower_asciiUpper, ih]

theorem all_isLowerHexB_map_fixed (l : List Nat) (h : l.all isLowerHexB = true) :
    l.map asciiLower = l := by
  induction l with
  | nil => rfl
  | cons c t ih =>
    simp only [List.all_cons, Bool.and_eq_true] at h
    simp [isLowerHexB_fixed c h.1, ih h.2]

theorem all_isLowerHexB_map_asciiLower (l : List Nat) (h : l.all isHexDigitB = true) :
    (l.map asciiLower).all isLowerHexB = true := by
  induction l with
  | nil => rfl
  | cons c t ih =>
    simp only [List.all_cons, Bool.and_eq_true] at h
    simp [isLowerHexB_asciiLower c h.1, ih h.2]

theorem all_isHexDigitB_map_asciiLower (l : List Nat) :
    (l.map asciiLower).all isHexDigitB = l.all isHexDigitB := by
  induction l with
  | nil => rfl
  | cons c t ih => simp [isHexDigitB_asciiLower, ih]

/- ### Facts about the 0x prefix and case conversion -/

theorem is0xPrefixedB_map_asciiLower (s : List Nat) :
    is0xPrefixedB (s.map asciiLower) = is0xPrefixedB s := by
  match s with
  | [] => rfl
  | [a] => rfl
  | a :: b :: t =>
    apply Bool.eq_iff_iff.mpr
    simp only [List.map_cons, is0xPrefixedB, Bool.and_eq_true, Bool.or_eq_true,
      beq_iff_eq]
    rw [asciiLower_eq_48_iff, asciiLower_eq_120_iff]
    unfold asciiLower
    split_ifs <;> omega

theorem remove0x_map_asciiLower (s : List Nat) :
    remove0x (s.map asciiLower) = (remove0x s).map asciiLower := by
  unfold remove0x
  rw [is0xPrefixedB_map_asciiLower]
  split_ifs with h
  · exact (List.map_drop ..).symm
  · rfl

theorem validAddrB_map_asciiLower (s : List Nat) :
    validAddrB (s.map asciiLower) = validAddrB s := by
  unfold validAddrB isHexStrB
  rw [remove0x_map_asciiLower, all_isHexDigitB_map_asciiLower, List.length_map]

theorem remove0x_hexPrefix_append (l : List Nat) :
    remove0x (hexPrefix ++ l) = l := by
  rfl

/- ### Length facts -/

theorem keccak256_length (msg : List Nat) : (keccak256 msg).length = 32 := by
  simp [keccak256, laneToBytes]

theorem hexCharsOfBytes_length (bs : List Nat) :
    (hexCharsOfBytes bs).length = 2 * bs.length := by
  induction bs with
  | nil => rfl
  | cons b t ih =>
    have hstep : hexCharsOfBytes (b :: t) =
        [hexDigitChar (b / 16), hexDigitChar (b % 16)] ++ hexCharsOfBytes t := rfl
    rw [hstep, List.length_append, ih]
    simp only [List.length_cons, List.length_nil]
    omega

theorem hexBodyBytes_length : ∀ l : List Nat, (hexBodyBytes l).length = l.length / 2
  | [] => by simp [hexBodyBytes]
  | [_] => by simp [hexBodyBytes]
  | a :: b :: t => by
    rw [hexBodyBytes.eq_3, List.length_cons, hexBodyBytes_length t]
    simp only [List.length_cons]
    omega

theorem be32_length (n : Nat) : (be32 n).length = 32 := by
  simp [be32]

/- ### Facts about the EIP-55 checksum body -/

theorem eip55Zip_map_asciiLower : ∀ (body hs : List Nat),
    body.length ≤ hs.length →
    (List.zipWith (fun c h => if 7 < hexVal h then asciiUpper c else c) body hs).map
      asciiLower = body.map asciiLower
  | [], _, _ => by simp
  | c :: bt, [], hlen => by simp at hlen
  | c :: bt, h :: ht, hlen => by
    simp only [List.length_cons] at hlen
    simp only [List.zipWith_cons_cons, List.map_cons,
      eip55Zip_map_asciiLower bt ht (by omega)]
    congr 1
    split_ifs
    · exact asciiLower_asciiUpper c
    · rfl

theorem eip55Zip_all_hex : ∀ (body hs : List Nat),
    body.all isLowerHexB = true →
    (List.zipWith (fun c h => if 7 < hexVal h then asciiUpper c else c) body hs).all
      isHexDigitB = true
  | [], _, _ => by simp
  | c :: bt, [], _ => by simp
  | c :: bt, h :: ht, hall => by
    simp only [List.all_cons, Bool.and_eq_true] at hall
    simp only [List.zipWith_cons_cons, List.all_cons, Bool.and_eq_true]
    refine ⟨?_, eip55Zip_all_hex bt ht hall.2⟩
    have hhex : isHexDigitB c = true := by
      simp only [isLowerHexB, isHexDigitB, Bool.or_eq_true, Bool.and_eq_true,
        decide_eq_true_eq] at hall ⊢
      rcases hall.1 with h1 | h1
      · exact Or.inl (Or.inl h1)
      · exact Or.inl (Or.inr h1)
    split_ifs
    · exact isHexDigitB_asciiUpper c hhex
    · exact hhex

theorem eip55Body_length (body : List Nat) (h : body.length = 40) :
    (eip55Body body).length = 40 := by
  simp only [eip55Body, List.length_zipWith, hexCharsOfBytes_length, keccak256_length, h]
  omega

theorem eip55Body_map_asciiLower (body : List Nat) (hlen : body.length = 40)
    (hlow : body.all isLowerHexB = true) :
    (eip55Body body).map asciiLower = body := by
  rw [eip55Body, eip55Zip_map_asciiLower, all_isLowerHexB_map_fixed body hlow]
  rw [hexCharsOfBytes_length, keccak256_length, hlen]
  omega

theorem eip55Body_all_hex (body : List Nat) (hlow : body.all isLowerHexB = true) :
    (eip55Body body).all isHexDigitB = true :=
  eip55Zip_all_hex body _ hlow

/- ### The checksummed form of a valid address -/

theorem validAddrB_iff (s : List Nat) :
    validAddrB s = true ↔
      (remove0x s).all isHexDigitB = true ∧ (remove0x s).length = 40 := by
  simp [validAddrB, isHexStrB]

theorem checksumOf_spec (s : List Nat) (h : validAddrB s = true) :
    remove0x (checksumOf s) = eip55Body ((remove0x s).map asciiLower) ∧
    (remove0x (checksumOf s)).map asciiLower = (remove0x s).map asciiLower ∧
    validAddrB (checksumOf s) = true ∧
    checksumOf (checksumOf s) = checksumOf s := by
  rw [validAddrB_iff] at h
  have hlow : ((remove0x s).map asciiLower).all isLowerHexB = true :=
    all_isLowerHexB_map_asciiLower _ h.1
  have hlen : ((remove0x s).map asciiLower).length = 40 := by
    rw [List.length_map]; exact h.2
  have h1 : remove0x (checksumOf s) = eip55Body ((remove0x s).map asciiLower) :=
    remove0x_hexPrefix_append _
  have h2 : (remove0x (checksumOf s)).map asciiLower = (remove0x s).map asciiLower := by
    rw [h1]
    exact eip55Body_map_asciiLower _ hlen hlow
  have h3 : validAddrB (checksumOf s) = true := by
    rw [validAddrB_iff, h1]
    exact ⟨eip55Body_all_hex _ hlow, eip55Body_length _ hlen⟩
  refine ⟨h1, h2, h3, ?_⟩
  have hdef : checksumOf (checksumOf s) =
      hexPrefix ++ eip55Body ((remove0x (checksumOf s)).map asciiLower) := rfl
  rw [hdef, h2]
  rfl

theorem to_checksum_address_ok (s : List Nat) (h : validAddrB s = true) :
    to_checksum_address s = .ok (checksumOf s) := by
  simp [to_checksum_address, h]

theorem to_checksum_address_idem (s : List Nat) (h : validAddrB s = true) :
    to_checksum_address (checksumOf s) = .ok (checksumOf s) := by
  obtain ⟨-, -, h3, h4⟩ := checksumOf_spec s h
  rw [to_checksum_address_ok _ h3, h4]

theorem isChecksumAddressB_checksumOf (s : List Nat) (h : validAddrB s = true) :
    isChecksumAddressB (checksumOf s) = true := by
  obtain ⟨-, -, h3, h4⟩ := checksumOf_spec s h
  simp [isChecksumAddressB, h3, h4]

theorem isAddressB_checksumOf (s : List Nat) (h : validAddrB s = true) :
    isAddressB (checksumOf s) = true := by
  obtain ⟨-, -, h3, -⟩ := checksumOf_spec s h
  simp [isAddressB, h3, isChecksumAddressB_checksumOf s h]

theorem checksumOf_lower_congr (s1 s2 : List Nat)
    (h : s1.map asciiLower = s2.map asciiLower) : checksumOf s1 = checksumOf s2 := by
  unfold checksumOf
  rw [← remove0x_map_asciiLower, ← remove0x_map_asciiLower, h]

theorem validAddrB_lower_congr (s1 s2 : List Nat)
    (h : s1.map asciiLower = s2.map asciiLower) : validAddrB s1 = validAddrB s2 := by
  rw [← validAddrB_map_asciiLower s1, ← validAddrB_map_asciiLower s2, h]

/- ### ABI slot lemmas -/

theorem uintSlot_ok (bits : Nat) (v : Int) (h : uintOk bits v) :
    uintSlot bits v = .ok (be32 v.toNat) := by
  have h' : 0 ≤ v ∧ v < (2 : Int) ^ bits := h
  unfold uintSlot
  rw [if_pos h']

theorem addressSlot_ok (s : List Nat) (h : isAddressB s = true) :
    addressSlot s = .ok (addrSlotBytes s) := by
  simp [addressSlot, h, addrSlotBytes]

theorem addrSlotBytes_length (s : List Nat) (h : validAddrB s = true) :
    (addrSlotBytes s).length = 32 := by
  rw [validAddrB_iff] at h
  simp [addrSlotBytes, hexBodyBytes_length, h.2]

theorem addrSlotBytes_lower_congr (s1 s2 : List Nat)
    (h : s1.map asciiLower = s2.map asciiLower) : addrSlotBytes s1 = addrSlotBytes s2 := by
  unfold addrSlotBytes
  rw [← remove0x_map_asciiLower, ← remove0x_map_asciiLower, h]

theorem addrSlotBytes_checksumOf (s : List Nat) (h : validAddrB s = true) :
    addrSlotBytes (checksumOf s) = addrSlotBytes s := by
  unfold addrSlotBytes
  rw [(checksumOf_spec s h).2.1]

theorem structSlots_length (agentId : Int) (client : List Nat)
    (indexLimit expiry chainId : Int) (registry signer : List Nat)
    (hc : validAddrB client = true) (hr : validAddrB registry = true)
    (hs : validAddrB signer = true) :
    (structSlots agentId client indexLimit expiry chainId registry signer).length = 224 := by
  simp [structSlots, be32_length, addrSlotBytes_length _ hc,
    addrSlotBytes_length _ hr, addrSlotBytes_length _ hs]

theorem encodeStruct_ok (agentId : Int) (client : List Nat)
    (indexLimit expiry chainId : Int) (registry signer : List Nat)
    (h1 : uintOk 256 agentId) (h3 : uintOk 64 indexLimit)
    (h4 : uintOk 256 expiry) (h5 : uintOk 256 chainId)
    (hc : isAddressB client = true) (hr : isAddressB registry = true)
    (hs : isAddressB signer = true) :
    encodeFeedbackAuthStruct agentId client indexLimit expiry chainId registry signer =
      .ok (structSlots agentId client indexLimit expiry chainId registry signer) := by
  unfold encodeFeedbackAuthStruct
  rw [uintSlot_ok _ _ h1, addressSlot_ok _ hc, uintSlot_ok _ _ h3,
    uintSlot_ok _ _ h4, uintSlot_ok _ _ h5, addressSlot_ok _ hr, addressSlot_ok _ hs]
  rfl

/- ### Payload and build characterizations -/

theorem encoded_of_valid (p : FeedbackAuthPayload)
    (hc : validAddrB p.client_address = true)
    (hr : validAddrB p.identity_registry = true)
    (hs : validAddrB p.signer_address = true)
    (h1 : uintOk 256 p.agent_id) (h3 : uintOk 64 p.index_limit)
    (h4 : uintOk 256 p.expiry) (h5 : uintOk 256 p.chain_id) :
    p.encoded = .ok (structSlots p.agent_id p.client_address p.index_limit
      p.expiry p.chain_id p.identity_registry p.signer_address ++ p.signature) := by
  unfold FeedbackAuthPayload.encoded
  rw [to_checksum_address_ok _ hc, to_checksum_address_ok _ hr, to_checksum_address_ok _ hs]
  simp only [Bind.bind, Except.bind]
  rw [encodeStruct_ok _ _ _ _ _ _ _ h1 h3 h4 h5 (isAddressB_checksumOf _ hc)
    (isAddressB_checksumOf _ hr) (isAddressB_checksumOf _ hs)]
  unfold structSlots
  rw [addrSlotBytes_checksumOf _ hc, addrSlotBytes_checksumOf _ hr,
    addrSlotBytes_checksumOf _ hs]
  rfl

theorem build_characterization (af : AuthFeedback) (agentId : Int)
    (clientAddress : List Nat) (indexLimit expiry chainId : Int)
    (identityRegistry : List Nat) (signerAddress : Option (List Nat))
    (hc : validAddrB clientAddress = true)
    (hr : validAddrB identityRegistry = true)
    (hs : validAddrB (effectiveSigner af signerAddress) = true)
    (h1 : uintOk 256 agentId) (h3 : uintOk 64 indexLimit)
    (h4 : uintOk 256 expiry) (h5 : uintOk 256 chainId) :
    af.build agentId clientAddress indexLimit expiry chainId identityRegistry
        signerAddress =
      (let sb := structSlots agentId clientAddress indexLimit expiry chainId
        identityRegistry (effectiveSigner af signerAddress)
      let sig := af.account.sign (keccak256 sb)
      if sig.length ≠ 65 then .error .signatureError
      else .ok ⟨agentId, checksumOf clientAddress, indexLimit, expiry, chainId,
        checksumOf identityRegistry, checksumOf (effectiveSigner af signerAddress),
        sig⟩) := by
  unfold AuthFeedback.build
  rw [to_checksum_address_ok _ hs, to_checksum_address_ok _ hc, to_checksum_address_ok _ hr]
  simp only [Bind.bind, Except.bind]
  rw [encodeStruct_ok _ _ _ _ _ _ _ h1 h3 h4 h5 (isAddressB_checksumOf _ hc)
    (isAddressB_checksumOf _ hr) (isAddressB_checksumOf _ hs)]
  have hsl : structSlots agentId (checksumOf clientAddress) indexLimit expiry
      chainId (checksumOf identityRegistry)
      (checksumOf (effectiveSigner af signerAddress)) =
      structSlots agentId clientAddress indexLimit expiry chainId
        identityRegistry (effectiveSigner af signerAddress) := by
    unfold structSlots
    rw [addrSlotBytes_checksumOf _ hc, addrSlotBytes_checksumOf _ hr,
      addrSlotBytes_checksumOf _ hs]
  rw [hsl]

/- ### Inversion lemmas -/

theorem to_checksum_address_ok_inv (s c : List Nat)
    (h : to_checksum_address s = .ok c) :
    validAddrB s = true ∧ c = checksumOf s := by
  unfold to_checksum_address at h
  by_cases hv : validAddrB s = true
  · rw [if_pos hv] at h
    exact ⟨hv, (Except.ok.injEq .. ▸ h).symm⟩
  · rw [if_neg hv] at h
    exact absurd h (by simp)

theorem build_err_addr (af : AuthFeedback) (agentId : Int)
    (clientAddress : List Nat) (indexLimit expiry chainId : Int)
    (identityRegistry : List Nat) (signerAddress : Option (List Nat))
    (h : validAddrB (effectiveSigner af signerAddress) = false ∨
      validAddrB clientAddress = false ∨ validAddrB identityRegistry = false) :
    af.build agentId clientAddress indexLimit expiry chainId identityRegistry
      signerAddress = .error .valueError := by
  unfold AuthFeedback.build
  by_cases hs : validAddrB (effectiveSigner af signerAddress) = true
  · rw [to_checksum_address_ok _ hs]
    simp only [Bind.bind, Except.bind]
    by_cases hc : validAddrB clientAddress = true
    · rw [to_checksum_address_ok _ hc]
      have hr : validAddrB identityRegistry = false := by
        rcases h with h | h | h
        · rw [hs] at h; exact absurd h (by simp)
        · rw [hc] at h; exact absurd h (by simp)
        · exact h
      simp [to_checksum_address, hr]
    · simp [to_checksum_address, Bool.eq_false_iff.mpr hc, Bind.bind, Except.bind]
  · simp [to_checksum_address, Bool.eq_false_iff.mpr hs, Bind.bind, Except.bind]

theorem build_ok_inv (af : AuthFeedback) (agentId : Int)
    (clientAddress : List Nat) (indexLimit expiry chainId : Int)
    (identityRegistry : List Nat) (signerAddress : Option (List Nat))
    (p : FeedbackAuthPayload)
    (h : af.build agentId clientAddress indexLimit expiry chainId
      identityRegistry signerAddress = .ok p) :
    validAddrB (effectiveSigner af signerAddress) = true ∧
    validAddrB clientAddress = true ∧ validAddrB identityRegistry = true ∧
    p.client_address = checksumOf clientAddress ∧
    p.identity_registry = checksumOf identityRegistry ∧
    p.signer_address = checksumOf (effectiveSigner af signerAddress) ∧
    p.agent_id = agentId ∧ p.index_limit = indexLimit ∧ p.expiry = expiry ∧
    p.chain_id = chainId := by
  have hs : validAddrB (effectiveSigner af signerAddress) = true := by
    by_contra hs
    rw [build_err_addr af agentId clientAddress indexLimit expiry chainId
      identityRegistry signerAddress (Or.inl (Bool.eq_false_iff.mpr hs))] at h
    exact absurd h (by simp)
  have hc : validAddrB clientAddress = true := by
    by_contra hc
    rw [build_err_addr af agentId clientAddress indexLimit expiry chainId
      identityRegistry signerAddress (Or.inr (Or.inl (Bool.eq_false_iff.mpr hc)))] at h
    exact absurd h (by simp)
  have hr : validAddrB identityRegistry = true := by
    by_contra hr
    rw [build_err_addr af agentId clientAddress indexLimit expiry chainId
      identityRegistry signerAddress (Or.inr (Or.inr (Bool.eq_false_iff.mpr hr)))] at h
    exact absurd h (by simp)
  refine ⟨hs, hc, hr, ?_⟩
  unfold AuthFeedback.build at h
  rw [to_checksum_address_ok _ hs, to_checksum_address_ok _ hc,
    to_checksum_address_ok _ hr] at h
  simp only [Bind.bind, Except.bind] at h
  rcases henc : encodeFeedbackAuthStruct agentId (checksumOf clientAddress)
      indexLimit expiry chainId (checksumOf identityRegistry)
      (checksumOf (effectiveSigner af signerAddress)) with e | sb
  · simp only [henc] at h
    exact absurd h (by simp)
  · simp only [henc] at h
    by_cases hlen : (af.account.sign (keccak256 sb)).length ≠ 65
    · rw [if_pos hlen] at h
      exact absurd h (by simp)
    · rw [if_neg hlen] at h
      have hp := (Except.ok.injEq .. ▸ h)
      rw [← hp]
      exact ⟨rfl, rfl, rfl, rfl, rfl, rfl, rfl⟩

theorem encodeStruct_ok_inv (agentId : Int) (client : List Nat)
    (indexLimit expiry chainId : Int) (registry signer : List Nat)
    (b : List Nat)
    (h : encodeFeedbackAuthStruct agentId client indexLimit expiry chainId
      registry signer = .ok b) :
    b = structSlots agentId client indexLimit expiry chainId registry signer := by
  unfold encodeFeedbackAuthStruct uintSlot addressSlot at h
  simp only [Bind.bind, Except.bind] at h
  split_ifs at h
  all_goals try dsimp only at h
  all_goals
    first
      | (have hb := (Except.ok.injEq .. ▸ h)
         rw [← hb]
         rfl)
      | exact absurd h (by simp)

/- ### Facts about hex byte decoding -/

/-- Claim C8: the spec requires a last-index query on the reputation side,
and `ERC8004Client.get_last_index` indeed delegates to a `get_last_index`
attribute of the reputation registry service; but no such method exists on
`ReputationRegistryService` or its base class, so every call raises
`AttributeError` instead of returning the most recent feedback index. -/
theorem c8_get_last_index_missing :
    client_get_last_index_call = .error .attributeError ∧
    reputationRegistryServiceAttrs.contains "get_last_index" = false := by
  exact ⟨by decide, by decide⟩

/-- Claim C10: `ERC8004Client.revoke_feedback` ignores its `value` keyword
argument: two calls differing only in `value` construct equal
`ReputationRevokeFeedbackArgs` (whose `value` field keeps its default 0),
so the revoke transaction is always built with value 0. -/
theorem c10_revoke_value_ignored (agentId feedbackIndex gasLimit v v' : Int) :
    client_revoke_feedback_args agentId feedbackIndex gasLimit v =
      client_revoke_feedback_args agentId feedbackIndex gasLimit v' ∧
    (client_revoke_feedback_args agentId feedbackIndex gasLimit v).value = 0 ∧
    revoke_feedback_tx_value
      (client_revoke_feedback_args agentId feedbackIndex gasLimit v) = 0 :=
  ⟨rfl, rfl, rfl⟩

/-- Claim C7: metadata normalization accepts both structured entries and
key/value mappings (both shapes normalize identically), produces key/bytes
records in order (hex-prefixed string values decoded to raw bytes, e.g.
"0x1234" to the bytes 12 34, other strings UTF-8 encoded, bytes kept
as-is), and a mapping missing either the "key" or the "value" field fails
with `ContractInteractionError`. -/
theorem c7_metadata_normalization (k sv vb : List Nat) (v : PyVal)
    (rest : List MetadataInput) (out : List (List Nat × List Nat))
    (key? value? : Option PyVal) :
    normalize_metadata_entries
        [.mapping (some (.pyStr (strBytes "k"))) (some (.pyStr (strBytes "0x1234")))] =
      .ok [(strBytes "k", [18, 52])] ∧
    normalize_metadata_entries [.entry ⟨.pyStr k, v⟩] =
      normalize_metadata_entries [.mapping (some (.pyStr k)) (some v)] ∧
    (to_bytes_general v = .ok vb → normalize_metadata_entries rest = .ok out →
      normalize_metadata_entries (.entry ⟨.pyStr k, v⟩ :: rest) =
        .ok ((k, vb) :: out) ∧
      normalize_metadata_entries (.mapping (some (.pyStr k)) (some v) :: rest) =
        .ok ((k, vb) :: out)) ∧
    normalize_metadata_entries [.entry ⟨.pyStr k, .pyBytes vb⟩] = .ok [(k, vb)] ∧
    ((pyStrip sv).take 2 ≠ hexPrefix →
      normalize_metadata_entries [.entry ⟨.pyStr k, .pyStr sv⟩] =
        .ok [(k, utf8Encode (pyStrip sv))]) ∧
    (key? = none ∨ value? = none →
      normalize_metadata_entries (.mapping key? value? :: rest) =
        .error .contractInteractionError) := by
  refine ⟨by decide, rfl, ?_, ?_, ?_, ?_⟩
  · intro hv hrest
    have hmeta : to_bytes_meta v = .ok vb := by
      simp [to_bytes_meta, hv]
    constructor
    · simp only [normalize_metadata_entries, hmeta, hrest, Bind.bind, Except.bind,
        Pure.pure, Except.pure]
    · simp only [normalize_metadata_entries, hmeta, hrest, Bind.bind, Except.bind,
        Pure.pure, Except.pure]
  · simp only [normalize_metadata_entries, to_bytes_meta, to_bytes_general,
      Bind.bind, Except.bind, Pure.pure, Except.pure]
  · intro hpre
    have hv : to_bytes_meta (.pyStr sv) = .ok (utf8Encode (pyStrip sv)) := by
      simp only [to_bytes_meta, to_bytes_general]
      rw [if_neg hpre]
    simp only [normalize_metadata_entries, hv, Bind.bind, Except.bind,
      Pure.pure, Except.pure]
  · intro h
    rcases h with rfl | rfl
    · simp only [normalize_metadata_entries, Bind.bind, Except.bind]
    · cases key? <;>
        simp only [normalize_metadata_entries, Bind.bind, Except.bind]

/-- Claim C7 witness: normalization at concrete inputs of both shapes,
with a hex value, a UTF-8 value, raw bytes, and a mapping missing its
value. -/
theorem c7_witness :
    normalize_metadata_entries
        [.mapping (some (.pyStr (strBytes "k"))) (some (.pyStr (strBytes "0x1234")))] =
      .ok [(strBytes "k", [18, 52])] ∧
    normalize_metadata_entries [.entry ⟨.pyStr (strBytes "a"), .pyBytes [7]⟩] =
      .ok [(strBytes "a", [7])] ∧
    normalize_metadata_entries
        [.entry ⟨.pyStr (strBytes "a"), .pyBytes [7]⟩,
         .entry ⟨.pyStr (strBytes "b"), .pyStr (strBytes "text")⟩] =
      .ok [(strBytes "a", [7]), (strBytes "b", strBytes "text")] ∧
    normalize_metadata_entries [.mapping (some (.pyStr (strBytes "k"))) none] =
      .error .contractInteractionError := by
  have h := c7_metadata_normalization (strBytes "a") (strBytes "text") [7]
    (.pyBytes [7])
    [.entry ⟨.pyStr (strBytes "b"), .pyStr (strBytes "text")⟩]
    [(strBytes "b", strBytes "text")] (some (.pyStr (strBytes "k"))) none
  refine ⟨h.1, h.2.2.2.1, ?_, h.2.2.2.2.2 (Or.inr rfl)⟩
  exact (h.2.2.1 (by decide) (by decide)).1

/-- Claim C6: address normalization (`Web3.to_checksum_address`) is
idempotent and case-insensitive: when it maps `addr` to the checksummed
string `c`, it maps `c` to itself, maps the uppercased `addr` to the same
`c`, and maps every string agreeing with `addr` up to letter case to the
same `c`; consequently any two case variants encode to the same canonical
20-byte address slot in the struct encoding. -/
theorem c6_normalize_idempotent_case_insensitive (addr addr2 c : List Nat)
    (h : to_checksum_address addr = .ok c) :
    to_checksum_address c = .ok c ∧
    to_checksum_address (addr.map asciiUpper) = .ok c ∧
    (addr2.map asciiLower = addr.map asciiLower →
      to_checksum_address addr2 = .ok c) ∧
    addressSlot c = .ok (addrSlotBytes addr) ∧
    (addrSlotBytes addr).length = 32 := by
  obtain ⟨hv, rfl⟩ := to_checksum_address_ok_inv addr c h
  refine ⟨to_checksum_address_idem addr hv, ?_, ?_, ?_,
    addrSlotBytes_length addr hv⟩
  · have hl : (addr.map asciiUpper).map asciiLower = addr.map asciiLower :=
      map_asciiLower_asciiUpper addr
    have hv' : validAddrB (addr.map asciiUpper) = true := by
      rw [validAddrB_lower_congr _ _ hl]
      exact hv
    rw [to_checksum_address_ok _ hv', checksumOf_lower_congr _ _ hl]
  · intro h2
    have hv2 : validAddrB addr2 = true := by
      rw [validAddrB_lower_congr _ _ h2]
      exact hv
    rw [to_checksum_address_ok _ hv2, checksumOf_lower_congr _ _ h2]
  · rw [addressSlot_ok _ (isAddressB_checksumOf _ hv), addrSlotBytes_checksumOf _ hv]

/-- Claim C6 witness: the EIP-55 reference address evaluates to its
documented checksummed form, normalizing it again and normalizing the
uppercased input both return that same form, and its address slot is 32
bytes. -/
theorem c6_witness :
    checksumOf wEip55Addr = strBytes "0xfB6916095ca1df60bB79Ce92cE3Ea74c37c5d359" ∧
    to_checksum_address (checksumOf wEip55Addr) = .ok (checksumOf wEip55Addr) ∧
    to_checksum_address (wEip55Addr.map asciiUpper) = .ok (checksumOf wEip55Addr) ∧
    to_checksum_address (strBytes "0XFB6916095CA1DF60BB79CE92CE3EA74C37C5D359") =
      .ok (checksumOf wEip55Addr) ∧
    (addrSlotBytes wEip55Addr).length = 32 := by
  have h := c6_normalize_idempotent_case_insensitive wEip55Addr
    (strBytes "0XFB6916095CA1DF60BB79CE92CE3EA74C37C5D359")
    (checksumOf wEip55Addr) (to_checksum_address_ok wEip55Addr (by decide))
  exact ⟨by decide, h.1, h.2.1, h.2.2.1 (by decide), h.2.2.2.2⟩

/-- Claim C9 counterexample: a directly constructed payload whose
`client_address` is the malformed string "zz" makes the `encoded` property
raise `ValueError` (from `Web3.to_checksum_address`) instead of producing
bytes, so `len(encoded) = 224 + len(signature)` does not hold for every
directly constructed payload. -/
theorem c9_counterexample : c9Payload.encoded = .error .valueError := by decide

/-- Claim C9 (amended): for every payload whose fields are encodable
(syntactically valid addresses and in-range integers) and any signature
bytes whatsoever, `encoded` succeeds, its length is 224 plus the signature
length, and a second payload agreeing with the first up to letter case of
the three address strings (and equal elsewhere) has a byte-identical
`encoded` value, because `encoded` re-normalizes the addresses to checksum
form before ABI-encoding. -/
theorem c9_amended_encoded_case_invariant (p q : FeedbackAuthPayload)
    (hp : payloadFieldsOk p)
    (h1 : q.agent_id = p.agent_id)
    (h2 : q.client_address.map asciiLower = p.client_address.map asciiLower)
    (h3 : q.index_limit = p.index_limit) (h4 : q.expiry = p.expiry)
    (h5 : q.chain_id = p.chain_id)
    (h6 : q.identity_registry.map asciiLower = p.identity_registry.map asciiLower)
    (h7 : q.signer_address.map asciiLower = p.signer_address.map asciiLower)
    (h8 : q.signature = p.signature) :
    ∃ sb, p.encoded = .ok (sb ++ p.signature) ∧ sb.length = 224 ∧
      (sb ++ p.signature).length = 224 + p.signature.length ∧
      q.encoded = p.encoded := by
  obtain ⟨hc, hr, hs, hb1, hb3, hb4, hb5⟩ := hp
  have hlen := structSlots_length p.agent_id p.client_address p.index_limit
    p.expiry p.chain_id p.identity_registry p.signer_address hc hr hs
  refine ⟨_, encoded_of_valid p hc hr hs hb1 hb3 hb4 hb5, hlen,
    by simp [hlen], ?_⟩
  have hqc : validAddrB q.client_address = true := by
    rw [validAddrB_lower_congr _ _ h2]
    exact hc
  have hqr : validAddrB q.identity_registry = true := by
    rw [validAddrB_lower_congr _ _ h6]
    exact hr
  have hqs : validAddrB q.signer_address = true := by
    rw [validAddrB_lower_congr _ _ h7]
    exact hs
  rw [encoded_of_valid q hqc hqr hqs (by rw [h1]; exact hb1)
    (by rw [h3]; exact hb3) (by rw [h4]; exact hb4) (by rw [h5]; exact hb5),
    encoded_of_valid p hc hr hs hb1 hb3 hb4 hb5]
  unfold structSlots
  rw [addrSlotBytes_lower_congr _ _ h2, addrSlotBytes_lower_congr _ _ h6,
    addrSlotBytes_lower_congr _ _ h7, h1, h3, h4, h5, h8]

/-- Claim C9 witness: the valid concrete payload and its uppercase-prefixed
case variant have byte-identical encodings of length 224 plus the
signature length. -/
theorem c9_witness :
    ∃ sb, wPayload.encoded = .ok (sb ++ wPayload.signature) ∧ sb.length = 224 ∧
      (sb ++ wPayload.signature).length = 224 + wPayload.signature.length ∧
      wPayloadUpper.encoded = wPayload.encoded :=
  c9_amended_encoded_case_invariant wPayload wPayloadUpper
    ⟨by decide, by decide, by decide, ⟨by decide, by decide⟩,
      ⟨by decide, by decide⟩, ⟨by decide, by decide⟩, ⟨by decide, by decide⟩⟩
    (by decide) (by decide) (by decide) (by decide) (by decide) (by decide)
    (by decide) (by decide)

/-- Claim C3: `build` fails (with the `ValueError` raised by address
validation, the spec's ValidationError kind) whenever `client_address` or
`identity_registry` is not a syntactically valid 20-byte address; and when
`signer_address` is omitted the payload's `signer_address` is the
checksummed form of the address derived from the signer's private key,
hence that derived address itself whenever it is already canonical (as
`eth_account` guarantees). -/
theorem c3_build_validation (af : AuthFeedback)
    (agentId indexLimit expiry chainId : Int) (client registry : List Nat)
    (signerAddress : Option (List Nat)) (p : FeedbackAuthPayload) :
    (∀ c r : List Nat, validAddrB c = false ∨ validAddrB r = false →
      af.build agentId c indexLimit expiry chainId r signerAddress =
        .error .valueError) ∧
    (af.build agentId client indexLimit expiry chainId registry none = .ok p →
      to_checksum_address af.account.address = .ok p.signer_address ∧
      (checksumOf af.account.address = af.account.address →
        p.signer_address = af.account.address)) := by
  constructor
  · intro c r h
    apply build_err_addr
    rcases h with h | h
    · exact Or.inr (Or.inl h)
    · exact Or.inr (Or.inr h)
  · intro hb
    obtain ⟨hs, hc, hr, hpc, hpr, hps, -⟩ :=
      build_ok_inv af agentId client indexLimit expiry chainId registry none p hb
    have hsv : validAddrB af.account.address = true := hs
    constructor
    · rw [hps, to_checksum_address_ok _ hsv]
      rfl
    · intro hcan
      rw [hps]
      exact hcan

/-- Claim C3 witness: a malformed client address makes the concrete build
fail with `ValueError`, and the concrete build with `signer_address`
omitted returns a payload whose `signer_address` is the builder's own
derived address. -/
theorem c3_witness :
    wAuth.build 123 (strBytes "zz") 5 1700000000 1 wRegistryAddr none =
      .error .valueError ∧
    wPayload.signer_address = wAuth.account.address := by
  have h := c3_build_validation wAuth 123 5 1700000000 1 wClientAddr
    wRegistryAddr none wPayload
  refine ⟨h.1 (strBytes "zz") wRegistryAddr (Or.inl (by decide)), ?_⟩
  exact (h.2 (by rfl)).2 (by decide)

/-- Claim C4: constructing an `AuthFeedback` fails with `SignatureError`
(the spec's SigningError) when the key is empty or rejected by the signing
backend; and with valid, in-range build inputs, `build` fails with
`SignatureError` exactly when the backend's signature is not 65 bytes
long: a 65-byte signature passes the defensive check and `build`
succeeds, carrying that signature. -/
theorem c4_signing_error_paths
    (fromKey : List Nat → Except (List Nat) EthAccount) (key err : List Nat)
    (af : AuthFeedback) (agentId indexLimit expiry chainId : Int)
    (client registry : List Nat) (signerAddress : Option (List Nat))
    (hc : validAddrB client = true) (hr : validAddrB registry = true)
    (hs : validAddrB (effectiveSigner af signerAddress) = true)
    (h1 : uintOk 256 agentId) (h3 : uintOk 64 indexLimit)
    (h4 : uintOk 256 expiry) (h5 : uintOk 256 chainId) :
    AuthFeedback.fromPrivateKey fromKey [] = .error .signatureError ∧
    (fromKey key = .error err →
      AuthFeedback.fromPrivateKey fromKey key = .error .signatureError) ∧
    ((af.account.sign (keccak256 (structSlots agentId client indexLimit expiry
        chainId registry (effectiveSigner af signerAddress)))).length ≠ 65 →
      af.build agentId client indexLimit expiry chainId registry signerAddress =
        .error .signatureError) ∧
    ((af.account.sign (keccak256 (structSlots agentId client indexLimit expiry
        chainId registry (effectiveSigner af signerAddress)))).length = 65 →
      ∃ p, af.build agentId client indexLimit expiry chainId registry
          signerAddress = .ok p ∧
        p.signature = af.account.sign (keccak256 (structSlots agentId client
          indexLimit expiry chainId registry
          (effectiveSigner af signerAddress)))) := by
  have hbc := build_characterization af agentId client indexLimit expiry
    chainId registry signerAddress hc hr hs h1 h3 h4 h5
  refine ⟨rfl, ?_, ?_, ?_⟩
  · intro h
    unfold AuthFeedback.fromPrivateKey
    by_cases hk : key = []
    · rw [if_pos hk]
    · rw [if_neg hk, h]
  · intro hne
    rw [hbc]
    simp only [if_pos hne]
  · intro heq
    rw [hbc]
    simp only [heq]
    exact ⟨_, rfl, rfl⟩

/-- Claim C4 witness: the empty key and a backend-rejected key are refused
with `SignatureError`; the misbehaving 3-byte backend makes the concrete
build fail with `SignatureError`; the well-behaved 65-byte backend makes
it succeed. -/
theorem c4_witness :
    AuthFeedback.fromPrivateKey wFromKey [] = .error .signatureError ∧
    AuthFeedback.fromPrivateKey wFromKey (strBytes "xy") =
      .error .signatureError ∧
    wBadAuth.build 123 wClientAddr 5 1700000000 1 wRegistryAddr none =
      .error .signatureError ∧
    (∃ p, wAuth.build 123 wClientAddr 5 1700000000 1 wRegistryAddr none =
      .ok p ∧ p.signature = List.replicate 65 7) := by
  have hbad := c4_signing_error_paths wFromKey (strBytes "xy") (strBytes "bad key")
    wBadAuth 123 5 1700000000 1 wClientAddr wRegistryAddr none
    (by decide) (by decide) (by decide)
    ⟨by decide, by decide⟩ ⟨by decide, by decide⟩
    ⟨by decide, by decide⟩ ⟨by decide, by decide⟩
  have hgood := c4_signing_error_paths wFromKey (strBytes "xy") (strBytes "bad key")
    wAuth 123 5 1700000000 1 wClientAddr wRegistryAddr none
    (by decide) (by decide) (by decide)
    ⟨by decide, by decide⟩ ⟨by decide, by decide⟩
    ⟨by decide, by decide⟩ ⟨by decide, by decide⟩
  obtain ⟨p, hp, hsig⟩ := hgood.2.2.2 (by rfl)
  exact ⟨hbad.1, hbad.2.1 (by rfl), hbad.2.2.1 (by decide), p, hp, hsig⟩

/-- Claim C1: for every payload returned by `build` on valid inputs, the
ABI-encoded struct portion is exactly 224 bytes — seven 32-byte slots in
the declared field order, where integer slots are the 32-byte big-endian
(zero-left-padded) values and address slots are 12 zero bytes followed by
the 20 address bytes — and the full `encoded` value is exactly 289 bytes:
the 224 struct bytes followed by the 65-byte signature. -/
theorem c1_payload_encoding_lengths (af : AuthFeedback)
    (agentId indexLimit expiry chainId : Int) (client registry : List Nat)
    (signerAddress : Option (List Nat))
    (hc : validAddrB client = true) (hr : validAddrB registry = true)
    (hs : validAddrB (effectiveSigner af signerAddress) = true)
    (h1 : uintOk 256 agentId) (h3 : uintOk 64 indexLimit)
    (h4 : uintOk 256 expiry) (h5 : uintOk 256 chainId)
    (hsig : (af.account.sign (keccak256 (structSlots agentId client indexLimit
      expiry chainId registry (effectiveSigner af signerAddress)))).length = 65) :
    ∃ p sb, af.build agentId client indexLimit expiry chainId registry
        signerAddress = .ok p ∧
      encodeFeedbackAuthStruct p.agent_id p.client_address p.index_limit
        p.expiry p.chain_id p.identity_registry p.signer_address = .ok sb ∧
      sb = be32 p.agent_id.toNat ++ addrSlotBytes p.client_address ++
        be32 p.index_limit.toNat ++ be32 p.expiry.toNat ++
        be32 p.chain_id.toNat ++ addrSlotBytes p.identity_registry ++
        addrSlotBytes p.signer_address ∧
      (be32 p.agent_id.toNat).length = 32 ∧
      (addrSlotBytes p.client_address).length = 32 ∧
      (be32 p.index_limit.toNat).length = 32 ∧
      (be32 p.expiry.toNat).length = 32 ∧
      (be32 p.chain_id.toNat).length = 32 ∧
      (addrSlotBytes p.identity_registry).length = 32 ∧
      (addrSlotBytes p.signer_address).length = 32 ∧
      sb.length = 224 ∧ p.signature.length = 65 ∧
      p.encoded = .ok (sb ++ p.signature) ∧
      (sb ++ p.signature).length = 289 := by
  have hbc := build_characterization af agentId client indexLimit expiry
    chainId registry signerAddress hc hr hs h1 h3 h4 h5
  obtain ⟨hcv1, hcv2, hcv3, -⟩ := checksumOf_spec client hc
  obtain ⟨hrv1, hrv2, hrv3, -⟩ := checksumOf_spec registry hr
  obtain ⟨hsv1, hsv2, hsv3, -⟩ := checksumOf_spec (effectiveSigner af signerAddress) hs
  refine ⟨⟨agentId, checksumOf client, indexLimit, expiry, chainId,
    checksumOf registry, checksumOf (effectiveSigner af signerAddress),
    af.account.sign (keccak256 (structSlots agentId client indexLimit expiry
      chainId registry (effectiveSigner af signerAddress)))⟩,
    structSlots agentId (checksumOf client) indexLimit expiry chainId
      (checksumOf registry) (checksumOf (effectiveSigner af signerAddress)),
    ?_, ?_, rfl, be32_length _, ?_, be32_length _, be32_length _, be32_length _,
    ?_, ?_, ?_, hsig, ?_, ?_⟩
  · rw [hbc]
    simp [hsig]
  · exact encodeStruct_ok agentId (checksumOf client) indexLimit expiry chainId
      (checksumOf registry) (checksumOf (effectiveSigner af signerAddress))
      h1 h3 h4 h5 (isAddressB_checksumOf _ hc) (isAddressB_checksumOf _ hr)
      (isAddressB_checksumOf _ hs)
  · exact addrSlotBytes_length _ hcv3
  · exact addrSlotBytes_length _ hrv3
  · exact addrSlotBytes_length _ hsv3
  · exact structSlots_length _ _ _ _ _ _ _ hcv3 hrv3 hsv3
  · exact encoded_of_valid _ hcv3 hrv3 hsv3 h1 h3 h4 h5
  · rw [List.length_append,
      structSlots_length _ _ _ _ _ _ _ hcv3 hrv3 hsv3, hsig]

/-- Claim C1 witness: the concrete build succeeds and its payload encodes
to 224 struct bytes plus the 65 signature bytes, 289 in total. -/
theorem c1_witness :
    ∃ p sb, wAuth.build 123 wClientAddr 5 1700000000 1 wRegistryAddr none =
        .ok p ∧
      encodeFeedbackAuthStruct p.agent_id p.client_address p.index_limit
        p.expiry p.chain_id p.identity_registry p.signer_address = .ok sb ∧
      sb.length = 224 ∧ p.signature.length = 65 ∧
      p.encoded = .ok (sb ++ p.signature) ∧
      (sb ++ p.signature).length = 289 := by
  obtain ⟨p, sb, hb, henc, -, -, -, -, -, -, -, -, hl, hsl, he, hel⟩ :=
    c1_payload_encoding_lengths wAuth 123 5 1700000000 1 wClientAddr
      wRegistryAddr none (by decide) (by decide) (by decide)
      ⟨by decide, by decide⟩ ⟨by decide, by decide⟩
      ⟨by decide, by decide⟩ ⟨by decide, by decide⟩ (by rfl)
  exact ⟨p, sb, hb, henc, hl, hsl, he, hel⟩

/-- Claim C2: the struct encoding is deterministic and case-insensitive in
its address inputs (any successful re-encoding with addresses equal up to
letter case yields the identical bytes), and re-encoding the field values
carried by a payload produced by `build` reproduces exactly the 224-byte
struct encoding whose keccak digest was signed: the round-trip law. In the
embedding keyword-argument order does not exist; the encoder is a function
of the ordered field tuple. -/
theorem c2_encode_deterministic_roundtrip (af : AuthFeedback)
    (agentId indexLimit expiry chainId : Int) (client registry : List Nat)
    (signerAddress : Option (List Nat))
    (client2 registry2 signer2 b2 : List Nat)
    (hc : validAddrB client = true) (hr : validAddrB registry = true)
    (hs : validAddrB (effectiveSigner af signerAddress) = true)
    (h1 : uintOk 256 agentId) (h3 : uintOk 64 indexLimit)
    (h4 : uintOk 256 expiry) (h5 : uintOk 256 chainId)
    (hsig : (af.account.sign (keccak256 (structSlots agentId client indexLimit
      expiry chainId registry (effectiveSigner af signerAddress)))).length = 65)
    (hc2 : client2.map asciiLower = client.map asciiLower)
    (hr2 : registry2.map asciiLower = registry.map asciiLower)
    (hs2 : signer2.map asciiLower =
      (effectiveSigner af signerAddress).map asciiLower) :
    ∃ p sb, af.build agentId client indexLimit expiry chainId registry
        signerAddress = .ok p ∧
      encodeFeedbackAuthStruct p.agent_id p.client_address p.index_limit
        p.expiry p.chain_id p.identity_registry p.signer_address = .ok sb ∧
      sb.length = 224 ∧
      p.encoded = .ok (sb ++ p.signature) ∧
      p.signature = af.account.sign (keccak256 sb) ∧
      (encodeFeedbackAuthStruct agentId client2 indexLimit expiry chainId
        registry2 signer2 = .ok b2 → b2 = sb) := by
  have hbc := build_characterization af agentId client indexLimit expiry
    chainId registry signerAddress hc hr hs h1 h3 h4 h5
  obtain ⟨-, -, hcv3, -⟩ := checksumOf_spec client hc
  obtain ⟨-, -, hrv3, -⟩ := checksumOf_spec registry hr
  obtain ⟨-, -, hsv3, -⟩ := checksumOf_spec (effectiveSigner af signerAddress) hs
  have hsl : structSlots agentId (checksumOf client) indexLimit expiry chainId
      (checksumOf registry) (checksumOf (effectiveSigner af signerAddress)) =
      structSlots agentId client indexLimit expiry chainId registry
        (effectiveSigner af signerAddress) := by
    unfold structSlots
    rw [addrSlotBytes_checksumOf _ hc, addrSlotBytes_checksumOf _ hr,
      addrSlotBytes_checksumOf _ hs]
  refine ⟨⟨agentId, checksumOf client, indexLimit, expiry, chainId,
    checksumOf registry, checksumOf (effectiveSigner af signerAddress),
    af.account.sign (keccak256 (structSlots agentId client indexLimit expiry
      chainId registry (effectiveSigner af signerAddress)))⟩,
    structSlots agentId (checksumOf client) indexLimit expiry chainId
      (checksumOf registry) (checksumOf (effectiveSigner af signerAddress)),
    ?_, ?_, ?_, ?_, ?_, ?_⟩
  · rw [hbc]
    simp [hsig]
  · exact encodeStruct_ok agentId (checksumOf client) indexLimit expiry chainId
      (checksumOf registry) (checksumOf (effectiveSigner af signerAddress))
      h1 h3 h4 h5 (isAddressB_checksumOf _ hc) (isAddressB_checksumOf _ hr)
      (isAddressB_checksumOf _ hs)
  · exact structSlots_length _ _ _ _ _ _ _ hcv3 hrv3 hsv3
  · exact encoded_of_valid _ hcv3 hrv3 hsv3 h1 h3 h4 h5
  · rw [hsl]
  · intro he2
    have hb2 := encodeStruct_ok_inv agentId client2 indexLimit expiry chainId
      registry2 signer2 b2 he2
    rw [hb2, hsl]
    unfold structSlots
    rw [addrSlotBytes_lower_congr _ _ hc2, addrSlotBytes_lower_congr _ _ hr2,
      addrSlotBytes_lower_congr _ _ hs2]

/-- Claim C2 witness: the concrete build's payload re-encodes to the same
224 struct bytes whose digest was signed, and the independent re-encoding
with uppercase-prefixed address variants produced the identical bytes. -/
theorem c2_witness :
    ∃ p sb, wAuth.build 123 wClientAddr 5 1700000000 1 wRegistryAddr none =
        .ok p ∧
      encodeFeedbackAuthStruct p.agent_id p.client_address p.index_limit
        p.expiry p.chain_id p.identity_registry p.signer_address = .ok sb ∧
      sb.length = 224 ∧
      p.encoded = .ok (sb ++ p.signature) ∧
      p.signature = wAuth.account.sign (keccak256 sb) ∧
      wStruct2 = sb := by
  obtain ⟨p, sb, hb, henc, hl, he, hsg, himp⟩ :=
    c2_encode_deterministic_roundtrip wAuth 123 5 1700000000 1 wClientAddr
      wRegistryAddr none wClientUpper wRegistryUpper wSignerUpper wStruct2
      (by decide) (by decide) (by decide)
      ⟨by decide, by decide⟩ ⟨by decide, by decide⟩
      ⟨by decide, by decide⟩ ⟨by decide, by decide⟩ (by rfl)
      (by decide) (by decide) (by decide)
  exact ⟨p, sb, hb, henc, hl, he, hsg, himp (by rfl)⟩
